import Mathlib

/-!
Verification of the dual-store synchronization core of the document
annotation system: Django ORM is the primary (authoritative) store and
MongoDB holds denormalized JSON projections.  The definitions below are a
shallow embedding of the Python sources:

* `documents/mongo_models.py`   — the MongoDB document classes,
* `documents/services/mongodb_service.py` — `MongoDBService`,
* `documents/services/hybrid_service.py`  — `HybridAnnotationService`,
* `documents/signals.py`        — the post-save / post-delete hooks,
* `documents/management/commands/sync_mongodb.py` — repair pass.

Python dicts holding annotation values become association lists
(`FieldMap`), MongoDB collections become Lean lists of records, and each
service method becomes a state transformer returning its boolean (or
exceptional) result together with the updated state.  Timestamps are
abstracted to `Nat` and `datetime.utcnow()` becomes an explicit `now`
argument.
-/

/-- A Django `User`: the code only reads `user.id` and `user.username`. -/
structure MUser where
  uid : Nat
  username : String
deriving DecidableEq

/-- Python dict of annotation field values, as an insertion-ordered
association list (`final_annotations`, `ai_pre_annotations`, ...). -/
abbrev FieldMap := List (String × String)

/-- `d.get(k)`: first binding of `k`, if any. -/
def fmGet (m : FieldMap) (k : String) : Option String :=
  (m.find? (fun p => p.1 == k)).map (fun p => p.2)

/-- `d[k] = v`: replace the binding in place, else append (Python dict
assignment preserves insertion order and appends new keys). -/
def fmSet (m : FieldMap) (k v : String) : FieldMap :=
  match m with
  | [] => [(k, v)]
  | (k', v') :: rest => if k' == k then (k, v) :: rest else (k', v') :: fmSet rest k v

/-- `d.update(u)`: apply every binding of `u` in order. -/
def fmUpdate (m u : FieldMap) : FieldMap :=
  u.foldl (fun acc p => fmSet acc p.1 p.2) m

/-- Value snapshot stored in a history entry's `old_value` / `new_value`
(the Python code stores `None`, a scalar, or a whole dict there). -/
inductive Snap where
  | nullS : Snap
  | strS : String → Snap
  | mapS : FieldMap → Snap
deriving DecidableEq

/-- `None`-aware injection used for `final_annotations.get(field_name)`. -/
def Snap.ofOpt : Option String → Snap
  | none => Snap.nullS
  | some v => Snap.strS v

/-! ### Connection manager (`MongoDBService.ensure_connection`,
`mongo_models.connect_mongodb`) -/

/-- Outcome of the underlying `mongoengine.connect` attempt: succeeds,
fails (so `connect_mongodb` returns `False`), or raises out of
`connect_mongodb` (e.g. an import error before its `try`). -/
inductive ConnectOutcome where
  | ok : ConnectOutcome
  | fail : ConnectOutcome
  | raised : ConnectOutcome
deriving DecidableEq

/-- `connect_mongodb()` (mongo_models.py lines 203-227): its own
`try/except` converts a failing connect into `False`; a raising attempt
escapes to the caller, which `ensure_connection` models via `.raised`. -/
def connect_mongodb : ConnectOutcome → Except Unit Bool
  | ConnectOutcome.ok => Except.ok true
  | ConnectOutcome.fail => Except.ok false
  | ConnectOutcome.raised => Except.error ()

/-- The `MongoDBService` instance state: `self._connection_tested`. -/
structure ConnMgr where
  connectionTested : Bool
deriving DecidableEq

/-- `ensure_connection` (mongodb_service.py lines 27-39).  Returns
(result, attempted-a-connect, new service state).  All failures of
`connect_mongodb` are caught and become a `false` result. -/
def ensureConnection (env : ConnectOutcome) (s : ConnMgr) : Bool × Bool × ConnMgr :=
  if s.connectionTested then (true, false, s)
  else
    match connect_mongodb env with
    | Except.ok true => (true, true, { connectionTested := true })
    | Except.ok false => (false, true, s)
    | Except.error _ => (false, true, s)

/-! ### Primary-store (Django) records, `documents/models.py` -/

/-- An `AnnotationField` row (also the shape of the embedded field
projections in MongoDB's schema collection). -/
structure DField where
  name : String
  label : String := ""
  field_type : String := "text"
  description : String := ""
  is_required : Bool := false
  is_multiple : Bool := false
  choices : List String := []
  order : Nat := 0
deriving DecidableEq

/-- A Django `Document` row. -/
structure DjangoDocument where
  did : Nat
  title : String
  description : String := ""
  file_type : String := "pdf"
  file_size : Nat := 0
  status : String := "uploaded"
  metadata : FieldMap := []
  uploaded_by : MUser
  created_at : Nat := 0
  updated_at : Nat := 0
deriving DecidableEq

/-- A Django `AnnotationSchema` row (one-to-one with `Document`). -/
structure DjangoSchema where
  sid : Nat
  document_id : Nat
  name : String := ""
  description : String := ""
  ai_generated_schema : FieldMap := []
  final_schema : FieldMap := []
  is_validated : Bool := false
  fields : List DField := []
  created_by : MUser
deriving DecidableEq

/-- A Django `Annotation` row (one-to-one with `Document`). -/
structure AnnotationDjango where
  aid : Nat
  document_id : Nat
  schema_id : Nat
  ai_pre_annotations : FieldMap := []
  final_annotations : FieldMap := []
  is_complete : Bool := false
  is_validated : Bool := false
  confidence_score : Option Rat := none
  validation_notes : String := ""
  annotated_by : MUser
  validated_by : Option MUser := none
  created_at : Nat := 0
  updated_at : Nat := 0
  completed_at : Option Nat := none
  validated_at : Option Nat := none
deriving DecidableEq

/-- The relational store.  `nextId` issues fresh primary keys. -/
structure DjangoState where
  documents : List DjangoDocument := []
  schemas : List DjangoSchema := []
  annotations : List AnnotationDjango := []
  nextId : Nat := 0
deriving DecidableEq

/-! ### Secondary-store (MongoDB) projections, `documents/mongo_models.py` -/

/-- A `DocumentMetadataMongo` document (keyed by the Django document id;
`oid` stands for the MongoDB object id). -/
structure DocumentMetadataMongo where
  oid : Nat
  document_id : Nat
  title : String
  description : String := ""
  file_type : String := "pdf"
  file_size : Nat := 0
  status : String := "uploaded"
  metadata : FieldMap := []
  uploaded_by : String := ""
  created_at : Nat := 0
  updated_at : Nat := 0
deriving DecidableEq

/-- An `AnnotationSchemaMongo` document with embedded field projections. -/
structure AnnotationSchemaMongo where
  oid : Nat
  document_id : Nat
  name : String := ""
  description : String := ""
  ai_generated_schema : FieldMap := []
  final_schema : FieldMap := []
  fields : List DField := []
  is_validated : Bool := false
  created_by_id : Nat := 0
  created_at : Nat := 0
  updated_at : Nat := 0
  validated_at : Option Nat := none
deriving DecidableEq

/-- An `AnnotationMongo` document. -/
structure AnnotationMongo where
  oid : Nat
  document_id : Nat
  schema_id : Nat
  ai_pre_annotations : FieldMap := []
  final_annotations : FieldMap := []
  confidence_scores : FieldMap := []
  validation_notes : String := ""
  is_complete : Bool := false
  is_validated : Bool := false
  completion_percentage : Rat := 0
  average_confidence : Option Rat := none
  annotated_by_id : Nat
  validated_by_id : Option Nat := none
  created_at : Nat := 0
  updated_at : Nat := 0
  completed_at : Option Nat := none
  validated_at : Option Nat := none
deriving DecidableEq

/-- An `AnnotationHistoryMongo` document (append-only collection).
`performed_by_username` is declared `StringField(required=True)`
(mongo_models.py line 137); `none` models the field being left unset by a
constructor call, which MongoEngine's save-time validation rejects. -/
structure AnnotationHistoryMongo where
  oid : Nat
  annotation_id : Nat
  document_id : Nat
  action_type : String
  field_name : Option String := none
  old_value : Snap := Snap.nullS
  new_value : Snap := Snap.nullS
  comment : String := ""
  performed_by_id : Nat
  performed_by_username : Option String := none
  created_at : Nat := 0
deriving DecidableEq

/-- The four MongoDB collections.  `nextOid` issues fresh object ids. -/
structure MongoState where
  documentMetadata : List DocumentMetadataMongo := []
  schemas : List AnnotationSchemaMongo := []
  annotations : List AnnotationMongo := []
  history : List AnnotationHistoryMongo := []
  nextOid : Nat := 0
deriving DecidableEq

/-- Whole-system state: both stores plus the MongoDB service's
`_connection_tested` flag. -/
structure SysState where
  django : DjangoState := {}
  mongo : MongoState := {}
  connectionTested : Bool := false
deriving DecidableEq

/-- `ensure_connection` acting on the whole-system state. -/
def sysEnsureConnection (env : ConnectOutcome) (st : SysState) : Bool × SysState :=
  let r := ensureConnection env { connectionTested := st.connectionTested }
  (r.1, { st with connectionTested := r.2.2.connectionTested })

/-! ### Lookups (`objects(document_id=...).first()` and saves) -/

/-- `AnnotationMongo.objects(document_id=d).first()`. -/
def findAnnotationM (m : MongoState) (d : Nat) : Option AnnotationMongo :=
  m.annotations.find? (fun a => a.document_id == d)

/-- `DocumentMetadataMongo.objects(document_id=d).first()`. -/
def findDocMetaM (m : MongoState) (d : Nat) : Option DocumentMetadataMongo :=
  m.documentMetadata.find? (fun a => a.document_id == d)

/-- `AnnotationSchemaMongo.objects(document_id=d).first()`. -/
def findSchemaM (m : MongoState) (d : Nat) : Option AnnotationSchemaMongo :=
  m.schemas.find? (fun a => a.document_id == d)

/-- `Annotation.objects.filter(document=doc).first()` on the Django side. -/
def findAnnotationDjango (d : DjangoState) (docId : Nat) : Option AnnotationDjango :=
  d.annotations.find? (fun a => a.document_id == docId)

/-- `AnnotationSchema.objects.filter(document=doc).first()`. -/
def findSchemaDjango (d : DjangoState) (docId : Nat) : Option DjangoSchema :=
  d.schemas.find? (fun a => a.document_id == docId)

/-- `Document.objects.get(id=docId)`, as an `Option`. -/
def findDocumentDjango (d : DjangoState) (docId : Nat) : Option DjangoDocument :=
  d.documents.find? (fun a => a.did == docId)

/-- Truthiness of a stored annotation value (Python: non-empty string). -/
def truthy (v : String) : Bool := v != ""

/-- The overridden `AnnotationMongo.save`: refresh `updated_at` and, when
`final_annotations` is non-empty, recompute `completion_percentage` as the
share of truthy values (mongo_models.py lines 108-116). -/
def annotationMongoSaveFixup (a : AnnotationMongo) (now : Nat) : AnnotationMongo :=
  let a := { a with updated_at := now }
  if a.final_annotations.isEmpty then a
  else
    let total := a.final_annotations.length
    let completed := (a.final_annotations.filter (fun p => truthy p.2)).length
    { a with completion_percentage := ((completed : Rat) * 100) / (total : Rat) }

/-- Persist a fetched-and-modified `AnnotationMongo` (replace by object id). -/
def saveAnnotationM (m : MongoState) (a : AnnotationMongo) (now : Nat) : MongoState :=
  { m with annotations :=
      m.annotations.map (fun x => if x.oid == a.oid then annotationMongoSaveFixup a now else x) }

/-- Persist a `DocumentMetadataMongo` (its `save` refreshes `updated_at`). -/
def saveDocMetaM (m : MongoState) (a : DocumentMetadataMongo) (now : Nat) : MongoState :=
  { m with documentMetadata :=
      m.documentMetadata.map (fun x => if x.oid == a.oid then { a with updated_at := now } else x) }

/-- Persist an `AnnotationSchemaMongo` (its `save` refreshes `updated_at`). -/
def saveSchemaM (m : MongoState) (a : AnnotationSchemaMongo) (now : Nat) : MongoState :=
  { m with schemas :=
      m.schemas.map (fun x => if x.oid == a.oid then { a with updated_at := now } else x) }

/-! ### `MongoDBService` operations (`documents/services/mongodb_service.py`) -/

/-- MongoEngine's save-time validation of an `AnnotationHistoryMongo`:
`performed_by_username` is `required=True` and must be set, and
`old_value` / `new_value` are `DictField`s, which accept `None` or a dict
but reject a scalar. -/
def historyValidates (h : AnnotationHistoryMongo) : Bool :=
  h.performed_by_username.isSome
    && (match h.old_value with
        | Snap.strS _ => false
        | _ => true)
    && (match h.new_value with
        | Snap.strS _ => false
        | _ => true)

/-- `_add_annotation_history` (lines 293-314): build an entry and save it.
The method never sets the required `performed_by_username` (so the entry
defaults to `none` there), `history.save()` therefore raises
`ValidationError`, the method's own `except` catches it and returns
`False` — nothing is ever appended by this helper.  (The separate
`create_annotation_history`, lines 540-573, does set the username, which
is why the projection model keeps the validation explicit.) -/
def addAnnotationHistoryM (m : MongoState) (annId docId : Nat) (action : String)
    (user : MUser) (fieldName : Option String) (oldV newV : Snap) (comment : String)
    (now : Nat) : Bool × MongoState :=
  let entry : AnnotationHistoryMongo :=
    { oid := m.nextOid, annotation_id := annId, document_id := docId,
      action_type := action, field_name := fieldName, old_value := oldV,
      new_value := newV, comment := comment, performed_by_id := user.uid,
      created_at := now }
  if historyValidates entry then
    (true, { m with history := m.history ++ [entry], nextOid := m.nextOid + 1 })
  else (false, m)

/-- `MongoDBService.update_annotation_field` (lines 169-200): set one key of
`final_annotations`, save, then attempt one `field_updated` history write
— unconditionally, whether or not the value changed — whose save always
fails validation (missing `performed_by_username`, scalar snapshots in the
`DictField`s), a failure the method ignores before returning `True`. -/
def updateAnnotationFieldM (st : SysState) (docId : Nat) (fieldName newValue : String)
    (user : MUser) (now : Nat) : Bool × SysState :=
  match findAnnotationM st.mongo docId with
  | none => (false, st)
  | some ann =>
    let oldValue := fmGet ann.final_annotations fieldName
    let ann' := { ann with final_annotations := fmSet ann.final_annotations fieldName newValue }
    let m1 := saveAnnotationM st.mongo ann' now
    let m2 := (addAnnotationHistoryM m1 ann.oid docId "field_updated" user
      (some fieldName) (Snap.ofOpt oldValue) (Snap.strS newValue) "" now).2
    (true, { st with mongo := m2 })

/-- `MongoDBService.update_annotation` (lines 202-232): merge a whole map
into `final_annotations`, save, then attempt exactly one `updated` history
write per call, snapshotting the whole old and new maps — a write whose
save always fails validation (missing `performed_by_username`), a failure
the method ignores before returning `True`. -/
def updateAnnotationM (st : SysState) (docId : Nat) (anns : FieldMap)
    (user : MUser) (now : Nat) : Bool × SysState :=
  match findAnnotationM st.mongo docId with
  | none => (false, st)
  | some ann =>
    let oldAnnotations := ann.final_annotations
    let ann' := { ann with final_annotations := fmUpdate ann.final_annotations anns }
    let m1 := saveAnnotationM st.mongo ann' now
    let m2 := (addAnnotationHistoryM m1 ann.oid docId "updated" user none
      (Snap.mapS oldAnnotations) (Snap.mapS ann'.final_annotations)
      "Annotation mise à jour" now).2
    (true, { st with mongo := m2 })

/-- `MongoDBService.validate_annotation` (lines 261-289): set the validated
flag, validator id, timestamp and notes, save, then attempt one
`validated` history write whose save always fails validation (missing
`performed_by_username`), a failure the method ignores before returning
`True`. -/
def validateAnnotationM (st : SysState) (docId : Nat) (user : MUser)
    (validationNotes : String) (now : Nat) : Bool × SysState :=
  match findAnnotationM st.mongo docId with
  | none => (false, st)
  | some ann =>
    let ann' := { ann with
      is_validated := true
      validated_by_id := some user.uid
      validated_at := some now
      validation_notes := validationNotes }
    let m1 := saveAnnotationM st.mongo ann' now
    let m2 := (addAnnotationHistoryM m1 ann.oid docId "validated" user none
      Snap.nullS Snap.nullS ("Annotation validée: " ++ validationNotes) now).2
    (true, { st with mongo := m2 })

/-- `MongoDBService.create_annotation` (lines 121-159): insert a new
`AnnotationMongo`, then attempt a `created` history write whose save
always fails validation (missing `performed_by_username`), a failure the
helper swallows.  A second document with the same `document_id` violates
the unique index, so the annotation save raises and the method re-raises
(`Except.error`). -/
def createAnnotationM (st : SysState) (docId schemaId : Nat) (user : MUser)
    (aiPre : FieldMap) (now : Nat) : Except Unit (Nat × SysState) :=
  if (findAnnotationM st.mongo docId).isSome then Except.error ()
  else
    let a : AnnotationMongo :=
      annotationMongoSaveFixup
        { oid := st.mongo.nextOid, document_id := docId, schema_id := schemaId,
          ai_pre_annotations := aiPre, final_annotations := [],
          annotated_by_id := user.uid, created_at := now } now
    let m1 := { st.mongo with
      annotations := st.mongo.annotations ++ [a]
      nextOid := st.mongo.nextOid + 1 }
    let m2 := (addAnnotationHistoryM m1 a.oid docId "created" user none
      Snap.nullS Snap.nullS "Annotation créée" now).2
    Except.ok (a.oid, { st with mongo := m2 })

/-- `MongoDBService.create_document_metadata` (lines 400-426): degrade to
`false` without the connection; insert the projection (a duplicate key
makes the save raise, caught into `false`). -/
def createDocumentMetadataM (env : ConnectOutcome) (st : SysState) (docId : Nat)
    (title description file_type : String) (file_size : Nat) (status : String)
    (metadata : FieldMap) (uploaded_by : String) (created_at now : Nat) :
    Bool × SysState :=
  let (ok, st) := sysEnsureConnection env st
  if !ok then (false, st)
  else if (findDocMetaM st.mongo docId).isSome then (false, st)
  else
    let d : DocumentMetadataMongo :=
      { oid := st.mongo.nextOid, document_id := docId, title := title,
        description := description, file_type := file_type, file_size := file_size,
        status := status, metadata := metadata, uploaded_by := uploaded_by,
        created_at := created_at, updated_at := now }
    (true, { st with mongo := { st.mongo with
      documentMetadata := st.mongo.documentMetadata ++ [d],
      nextOid := st.mongo.nextOid + 1 } })

/-- `MongoDBService.update_document_metadata` (lines 428-458): degrade to
`false` without the connection; `false` when the projection is absent;
otherwise patch the passed (non-`None`) fields and save. -/
def updateDocumentMetadataM (env : ConnectOutcome) (st : SysState) (docId : Nat)
    (title description status : Option String) (metadata : Option FieldMap)
    (updated_at : Option Nat) (now : Nat) : Bool × SysState :=
  let (ok, st) := sysEnsureConnection env st
  if !ok then (false, st)
  else
    match findDocMetaM st.mongo docId with
    | none => (false, st)
    | some d =>
      let d := match title with | some t => { d with title := t } | none => d
      let d := match description with | some x => { d with description := x } | none => d
      let d := match status with | some x => { d with status := x } | none => d
      let d := match metadata with | some x => { d with metadata := x } | none => d
      let d := match updated_at with | some x => { d with updated_at := x } | none => d
      (true, { st with mongo := saveDocMetaM st.mongo d now })

/-- `MongoDBService.delete_document_metadata` (lines 460-479): degrade to
`false` without the connection; otherwise delete the document projection
and every schema, annotation and history document keyed to the id. -/
def deleteDocumentMetadataM (env : ConnectOutcome) (st : SysState) (docId : Nat) :
    Bool × SysState :=
  let (ok, st) := sysEnsureConnection env st
  if !ok then (false, st)
  else
    (true, { st with mongo := { st.mongo with
      documentMetadata := st.mongo.documentMetadata.filter (fun x => x.document_id != docId),
      schemas := st.mongo.schemas.filter (fun x => x.document_id != docId),
      annotations := st.mongo.annotations.filter (fun x => x.document_id != docId),
      history := st.mongo.history.filter (fun x => x.document_id != docId) } })

/-- Payload handed to the schema update by the post-save hook (always
carries every key, signals.py lines 90-111). -/
structure SchemaData where
  name : String
  description : String
  ai_generated_schema : FieldMap
  final_schema : FieldMap
  is_validated : Bool
  fields : List DField
deriving DecidableEq

/-- `MongoDBService.update_annotation_schema` (lines 481-506, the later of
the two same-named defs, which Python keeps): degrade to `false` without
the connection; `false` when the schema projection is absent; otherwise
overwrite its fields from the payload and save. -/
def updateAnnotationSchemaM (env : ConnectOutcome) (st : SysState) (docId : Nat)
    (sd : SchemaData) (now : Nat) : Bool × SysState :=
  let (ok, st) := sysEnsureConnection env st
  if !ok then (false, st)
  else
    match findSchemaM st.mongo docId with
    | none => (false, st)
    | some s =>
      let s' := { s with
        name := sd.name
        description := sd.description
        ai_generated_schema := sd.ai_generated_schema
        final_schema := sd.final_schema
        is_validated := sd.is_validated
        fields := sd.fields
        updated_at := now }
      (true, { st with mongo := saveSchemaM st.mongo s' now })

/-- `MongoDBService.delete_annotation_schema` (lines 508-521). -/
def deleteAnnotationSchemaM (env : ConnectOutcome) (st : SysState) (docId : Nat) :
    Bool × SysState :=
  let (ok, st) := sysEnsureConnection env st
  if !ok then (false, st)
  else
    (true, { st with mongo := { st.mongo with
      schemas := st.mongo.schemas.filter (fun x => x.document_id != docId) } })

/-- `MongoDBService.delete_annotation` (lines 523-538): delete the
annotation and its history documents. -/
def deleteAnnotationM (env : ConnectOutcome) (st : SysState) (docId : Nat) :
    Bool × SysState :=
  let (ok, st) := sysEnsureConnection env st
  if !ok then (false, st)
  else
    (true, { st with mongo := { st.mongo with
      annotations := st.mongo.annotations.filter (fun x => x.document_id != docId),
      history := st.mongo.history.filter (fun x => x.document_id != docId) } })

/-! ### Change-capture hooks (`documents/signals.py`) -/

/-- The schema payload built by the schema post-save hook (signals.py
lines 90-111): every key present, fields embedded. -/
def schemaDataOf (s : DjangoSchema) : SchemaData :=
  { name := s.name, description := s.description,
    ai_generated_schema := s.ai_generated_schema, final_schema := s.final_schema,
    is_validated := s.is_validated, fields := s.fields }

/-- `sync_document_to_mongodb` (signals.py lines 18-60): on create, build
the full projection payload; on update, patch via
`update_document_metadata`.  The hook swallows failures (the boolean
results are ignored). -/
def syncDocumentToMongodb (created : Bool) (doc : DjangoDocument)
    (env : ConnectOutcome) (st : SysState) (now : Nat) : SysState :=
  if created then
    (createDocumentMetadataM env st doc.did doc.title doc.description doc.file_type
      doc.file_size doc.status doc.metadata doc.uploaded_by.username doc.created_at now).2
  else
    (updateDocumentMetadataM env st doc.did (some doc.title) (some doc.description)
      (some doc.status) (some doc.metadata) (some doc.updated_at) now).2

/-- The update branch of `sync_annotation_schema_to_mongodb` (signals.py
lines 124-132), the only branch reached by the repair paths modelled here. -/
def syncAnnotationSchemaToMongodbUpd (schema : DjangoSchema)
    (env : ConnectOutcome) (st : SysState) (now : Nat) : SysState :=
  (updateAnnotationSchemaM env st schema.document_id (schemaDataOf schema) now).2

/-- `sync_annotation_to_mongodb` (signals.py lines 155-197): on create,
mirror the new annotation into MongoDB; on update, push the full
`final_annotations` map through `update_annotation` and, when the row is
validated with a validator, also push `validate_annotation`.  Exceptions
are caught and swallowed. -/
def syncAnnotationToMongodb (created : Bool) (ann : AnnotationDjango)
    (st : SysState) (now : Nat) : SysState :=
  if created then
    match createAnnotationM st ann.document_id ann.schema_id ann.annotated_by
        ann.ai_pre_annotations now with
    | Except.ok r => r.2
    | Except.error _ => st
  else
    let st1 := (updateAnnotationM st ann.document_id ann.final_annotations
      ann.annotated_by now).2
    if ann.is_validated then
      match ann.validated_by with
      | some vu => (validateAnnotationM st1 ann.document_id vu ann.validation_notes now).2
      | none => st1
    else st1

/-- `delete_document_from_mongodb` (signals.py lines 63-76). -/
def deleteDocumentFromMongodb (env : ConnectOutcome) (st : SysState) (docId : Nat) :
    SysState :=
  (deleteDocumentMetadataM env st docId).2

/-- `delete_annotation_schema_from_mongodb` (signals.py lines 138-150). -/
def deleteAnnotationSchemaFromMongodb (env : ConnectOutcome) (st : SysState)
    (docId : Nat) : SysState :=
  (deleteAnnotationSchemaM env st docId).2

/-- `delete_annotation_from_mongodb` (signals.py lines 200-212). -/
def deleteAnnotationFromMongodb (env : ConnectOutcome) (st : SysState)
    (docId : Nat) : SysState :=
  (deleteAnnotationM env st docId).2

/-! ### Django-side writes (which fire the post-save / post-delete hooks) -/

/-- Persist a fetched-and-modified Django `Annotation` row (`auto_now`
refreshes `updated_at`) and fire the post-save hook with `created=False`. -/
def djangoSaveAnn (st : SysState) (ann : AnnotationDjango) (now : Nat) : SysState :=
  let ann' := { ann with updated_at := now }
  let dj := { st.django with
    annotations := st.django.annotations.map (fun x => if x.aid == ann'.aid then ann' else x) }
  syncAnnotationToMongodb false ann' { st with django := dj } now

/-- `Annotation.objects.create(...)`: insert a fresh row (the one-to-one
key makes a duplicate raise `IntegrityError`) and fire the post-save hook
with `created=True`. -/
def djangoCreateAnn (st : SysState) (docId schemaId : Nat) (aiPre : FieldMap)
    (user : MUser) (now : Nat) : Except Unit (AnnotationDjango × SysState) :=
  if (findAnnotationDjango st.django docId).isSome then Except.error ()
  else
    let a : AnnotationDjango :=
      { aid := st.django.nextId, document_id := docId, schema_id := schemaId,
        ai_pre_annotations := aiPre, final_annotations := [],
        annotated_by := user, created_at := now, updated_at := now }
    let st1 := { st with django := { st.django with
      annotations := st.django.annotations ++ [a]
      nextId := st.django.nextId + 1 } }
    Except.ok (a, syncAnnotationToMongodb true a st1 now)

/-- `document.delete()`: Django cascades to the schema and annotation rows
(each firing its post-delete hook) and then deletes the document row,
firing `delete_document_from_mongodb`. -/
def djangoDeleteDocument (env : ConnectOutcome) (st : SysState) (docId : Nat) :
    SysState :=
  let st1 := match findAnnotationDjango st.django docId with
    | some _ => deleteAnnotationFromMongodb env st docId
    | none => st
  let st2 := match findSchemaDjango st1.django docId with
    | some _ => deleteAnnotationSchemaFromMongodb env st1 docId
    | none => st1
  let st3 := deleteDocumentFromMongodb env st2 docId
  { st3 with django := { st3.django with
    documents := st3.django.documents.filter (fun x => x.did != docId)
    schemas := st3.django.schemas.filter (fun x => x.document_id != docId)
    annotations := st3.django.annotations.filter (fun x => x.document_id != docId) } }

/-! ### `HybridAnnotationService` (`documents/services/hybrid_service.py`) -/

/-- The merged-read payload of `get_annotation_with_mongodb_data`:
the `mongodb_data` enrichment block. -/
structure MongoDataView where
  mongo_id : Nat
  confidence_scores : FieldMap
  average_confidence : Option Rat
  completion_percentage_mongo : Rat
deriving DecidableEq

/-- The dict returned by `get_annotation_with_mongodb_data`. -/
structure AnnotationView where
  idA : Nat
  ai_pre_annotations : FieldMap
  final_annotations : FieldMap
  is_complete : Bool
  is_validated : Bool
  confidence_score : Option Rat
  validation_notes : String
  annotated_by : String
  created_at : Nat
  completion_percentage : Rat
  mongodb_data : Option MongoDataView
deriving DecidableEq

/-- The Django `Annotation.completion_percentage` property
(models.py lines 205-218): share of required schema fields carrying a
truthy value in `final_annotations`. -/
def djangoCompletionPercentage (d : DjangoState) (ann : AnnotationDjango) : Rat :=
  if ann.final_annotations.isEmpty then 0
  else
    match d.schemas.find? (fun s => s.sid == ann.schema_id) with
    | none => 0
    | some sch =>
      let req := sch.fields.filter (fun f => f.is_required)
      if req.length == 0 then 100
      else
        let completed := (req.filter (fun f =>
          match fmGet ann.final_annotations f.name with
          | some v => truthy v
          | none => false)).length
        ((completed : Rat) * 100) / (req.length : Rat)

/-- `HybridAnnotationService.get_annotation_with_mongodb_data`
(hybrid_service.py lines 188-230): build the view from the Django row,
then, when a MongoDB annotation exists, attach `mongodb_data` and replace
`final_annotations` and `ai_pre_annotations` with the MongoDB copies. -/
def getAnnotationWithMongodbData (st : SysState) (doc : DjangoDocument) :
    Option AnnotationView :=
  match findAnnotationDjango st.django doc.did with
  | none => none
  | some da =>
    let base : AnnotationView :=
      { idA := da.aid, ai_pre_annotations := da.ai_pre_annotations,
        final_annotations := da.final_annotations, is_complete := da.is_complete,
        is_validated := da.is_validated, confidence_score := da.confidence_score,
        validation_notes := da.validation_notes,
        annotated_by := da.annotated_by.username, created_at := da.created_at,
        completion_percentage := djangoCompletionPercentage st.django da,
        mongodb_data := none }
    match findAnnotationM st.mongo doc.did with
    | none => some base
    | some ma =>
      some { base with
        mongodb_data := some
          { mongo_id := ma.oid, confidence_scores := ma.confidence_scores,
            average_confidence := ma.average_confidence,
            completion_percentage_mongo := ma.completion_percentage }
        final_annotations := ma.final_annotations
        ai_pre_annotations := ma.ai_pre_annotations }

/-- `HybridAnnotationService.create_annotation` (hybrid_service.py lines
138-178): `ValueError` (re-raised) when the document has no Django schema;
otherwise create the Django row — whose post-save hook already mirrors it
into MongoDB — then call `MongoDBService.create_annotation` directly,
swallowing its failure (here: the duplicate-key raise). -/
def createAnnotationH (st : SysState) (doc : DjangoDocument) (user : MUser)
    (aiPre : FieldMap) (now : Nat) : Except Unit AnnotationDjango × SysState :=
  match findSchemaDjango st.django doc.did with
  | none => (Except.error (), st)
  | some schema =>
    match djangoCreateAnn st doc.did schema.sid aiPre user now with
    | Except.error e => (Except.error e, st)
    | Except.ok (da, st1) =>
      match createAnnotationM st1 doc.did schema.sid user aiPre now with
      | Except.ok r => (Except.ok da, r.2)
      | Except.error _ => (Except.ok da, st1)

/-- `HybridAnnotationService.update_annotation_field` (lines 232-256):
mutate and save the Django row when present (firing its post-save hook),
then call `MongoDBService.update_annotation_field` and return its result. -/
def updateAnnotationFieldH (st : SysState) (doc : DjangoDocument)
    (fieldName newValue : String) (user : MUser) (now : Nat) : Bool × SysState :=
  let st1 := match findAnnotationDjango st.django doc.did with
    | some da =>
      djangoSaveAnn st { da with
        final_annotations := fmSet da.final_annotations fieldName newValue } now
    | none => st
  updateAnnotationFieldM st1 doc.did fieldName newValue user now

/-- `HybridAnnotationService.update_annotation` (lines 258-281): merge into
and save the Django row when present (firing its post-save hook), then call
`MongoDBService.update_annotation` and return its result. -/
def updateAnnotationH (st : SysState) (doc : DjangoDocument) (anns : FieldMap)
    (user : MUser) (now : Nat) : Bool × SysState :=
  let st1 := match findAnnotationDjango st.django doc.did with
    | some da =>
      djangoSaveAnn st { da with
        final_annotations := fmUpdate da.final_annotations anns } now
    | none => st
  updateAnnotationM st1 doc.did anns user now

/-- `HybridAnnotationService.validate_annotation` (lines 283-309): set the
validated flag, validator and notes on the Django row (its `validated_at`
is never touched) and save it (firing its post-save hook), then call
`MongoDBService.validate_annotation` and return its result. -/
def validateAnnotationH (st : SysState) (doc : DjangoDocument) (user : MUser)
    (validationNotes : String) (now : Nat) : Bool × SysState :=
  let st1 := match findAnnotationDjango st.django doc.did with
    | some da =>
      djangoSaveAnn st { da with
        is_validated := true
        validated_by := some user
        validation_notes := validationNotes } now
    | none => st
  validateAnnotationM st1 doc.did user validationNotes now

/-! ### Auditor & repairer (`signals.py`, `sync_mongodb.py`) -/

/-- `force_sync_document_to_mongodb` (signals.py lines 273-306): look the
document up, re-run the update branch of each post-save hook for it, and
return `True`; a missing document raises `DoesNotExist`, caught into
`False`.  The boolean results of the nested updates are ignored. -/
def forceSyncDocumentToMongodb (env : ConnectOutcome) (st : SysState)
    (docId : Nat) (now : Nat) : Bool × SysState :=
  match findDocumentDjango st.django docId with
  | none => (false, st)
  | some doc =>
    let st1 := syncDocumentToMongodb false doc env st now
    let st2 := match findSchemaDjango st1.django docId with
      | some sch => syncAnnotationSchemaToMongodbUpd sch env st1 now
      | none => st1
    let st3 := match findAnnotationDjango st2.django docId with
      | some ann => syncAnnotationToMongodb false ann st2 now
      | none => st2
    (true, st3)

/-- One iteration of the `repair_synchronization` loop (sync_mongodb.py
lines 230-257): a missing projection goes through `force_sync`; a present
one is overwritten (title, description, status, metadata) only when its
title or status differs — the description is never compared. -/
def repairStep (env : ConnectOutcome) (now : Nat)
    (acc : Nat × Nat × SysState) (doc : DjangoDocument) : Nat × Nat × SysState :=
  let (repaired, errors, s) := acc
  match findDocMetaM s.mongo doc.did with
  | none =>
    let r := forceSyncDocumentToMongodb env s doc.did now
    if r.1 then (repaired + 1, errors, r.2) else (repaired, errors + 1, r.2)
  | some md =>
    if md.title != doc.title || md.status != doc.status then
      let md' := { md with
        title := doc.title
        description := doc.description
        status := doc.status
        metadata := doc.metadata }
      (repaired + 1, errors, { s with mongo := saveDocMetaM s.mongo md' now })
    else (repaired, errors, s)

/-- `Command.repair_synchronization` (sync_mongodb.py lines 214-269):
`CommandError` when MongoDB is unreachable; otherwise run `repairStep`
over every Django document, reporting `(repaired, errors)`. -/
def repairSynchronization (env : ConnectOutcome) (st : SysState) (now : Nat) :
    Except Unit (Nat × Nat × SysState) :=
  let (ok, st) := sysEnsureConnection env st
  if !ok then Except.error ()
  else Except.ok (st.django.documents.foldl (repairStep env now) (0, 0, st))

/-! ## Helper lemmas -/

/-- Writing back the value a key already holds leaves a Python dict
unchanged. -/
theorem fmSet_of_get_eq (m : FieldMap) (k v : String) (h : fmGet m k = some v) :
    fmSet m k v = m := by
  induction m with
  | nil => simp [fmGet] at h
  | cons p rest ih =>
    obtain ⟨k', v'⟩ := p
    by_cases hk : k' = k
    · subst hk
      have hv : v' = v := by simpa [fmGet] using h
      simp [fmSet, hv]
    · have hb : (k' == k) = false := by simp [hk]
      have h' : fmGet rest k = some v := by
        simpa [fmGet, List.find?, hb] using h
      simp [fmSet, hb, ih h']

/-- `annotationMongoSaveFixup` does not change the key. -/
theorem annotationMongoSaveFixup_document_id (a : AnnotationMongo) (now : Nat) :
    (annotationMongoSaveFixup a now).document_id = a.document_id := by
  by_cases h : a.final_annotations.isEmpty <;> simp [annotationMongoSaveFixup, h]

/-- `annotationMongoSaveFixup` does not change the object id. -/
theorem annotationMongoSaveFixup_oid (a : AnnotationMongo) (now : Nat) :
    (annotationMongoSaveFixup a now).oid = a.oid := by
  by_cases h : a.final_annotations.isEmpty <;> simp [annotationMongoSaveFixup, h]

/-- `annotationMongoSaveFixup` does not change `final_annotations`. -/
theorem annotationMongoSaveFixup_final (a : AnnotationMongo) (now : Nat) :
    (annotationMongoSaveFixup a now).final_annotations = a.final_annotations := by
  by_cases h : a.final_annotations.isEmpty <;> simp [annotationMongoSaveFixup, h]

/-- A connected (or connectable) system state passes `ensure_connection`
and only its `_connection_tested` flag moves. -/
theorem sysEnsureConnection_ok (env : ConnectOutcome) (st : SysState)
    (h : st.connectionTested = true ∨ env = ConnectOutcome.ok) :
    sysEnsureConnection env st = (true, { st with connectionTested := true }) := by
  rcases h with h | h
  · simp [sysEnsureConnection, ensureConnection, h]
  · subst h
    by_cases hc : st.connectionTested <;>
      simp [sysEnsureConnection, ensureConnection, connect_mongodb, hc]

/-- A sample user shared by the concrete scenarios below. -/
def userA : MUser := { uid := 7, username := "alice" }

/-! ## Claim C9 — connection manager contract -/

/-- C9: `ensure_connection` is a total Lean function into `Bool` (it never
raises: every `connect_mongodb` outcome, including a raising one, is
converted to a boolean).  Moreover: a `true` result marks the connection
tested, so every later call short-circuits; with the flag set the call
returns `true` without attempting a connect and without changing state; a
`false` result leaves the flag clear and any call with the flag clear
attempts the connection again. -/
theorem c9_ensure_connection_contract (env : ConnectOutcome) (s : ConnMgr) :
    ((ensureConnection env s).1 = true → (ensureConnection env s).2.2.connectionTested = true)
    ∧ ((ensureConnection env s).1 = false →
        (ensureConnection env s).2.2 = s ∧ s.connectionTested = false)
    ∧ (s.connectionTested = true → ensureConnection env s = (true, false, s))
    ∧ (s.connectionTested = false → (ensureConnection env s).2.1 = true) := by
  obtain ⟨b⟩ := s
  cases b <;> cases env <;> simp [ensureConnection, connect_mongodb]

/-- C9 witness: a failed connect yields `false` and leaves the flag clear,
at the concrete fresh-service state. -/
theorem c9_ensure_connection_contract_witness :
    (ensureConnection ConnectOutcome.fail { connectionTested := false }).2.2
        = { connectionTested := false }
    ∧ ({ connectionTested := false } : ConnMgr).connectionTested = false :=
  (c9_ensure_connection_contract ConnectOutcome.fail
    { connectionTested := false }).2.1 (by decide)

/-! ## Claim C1 — history entries appended by `update_annotation` -/

/-- The single annotation document of the C1 scenario: field `a` already
holds value `1`. -/
def c1Ann : AnnotationMongo :=
  { oid := 0, document_id := 1, schema_id := 2,
    final_annotations := [("a", "1")], annotated_by_id := 7 }

/-- The C1 scenario state: the annotation exists, history empty. -/
def c1State : SysState := { mongo := { annotations := [c1Ann], nextOid := 1 } }

/-- C1 counterexample: calling `update_annotation` with one changed value
(`a` goes from `1` to `2`, so N = 1) merges the value and returns `true`,
but appends zero history entries, not the one entry per changed value the
claim demands — the attempted `updated` history write fails MongoEngine
validation (missing required `performed_by_username`). -/
theorem c1_changed_value_appends_no_entry :
    fmGet c1Ann.final_annotations "a" = some "1"
    ∧ ("1" : String) ≠ "2"
    ∧ (updateAnnotationM c1State 1 [("a", "2")] userA 5).1 = true
    ∧ (updateAnnotationM c1State 1 [("a", "2")] userA 5).2.mongo.annotations.map
        (fun a => a.final_annotations) = [[("a", "2")]]
    ∧ (updateAnnotationM c1State 1 [("a", "2")] userA 5).2.mongo.history.length = 0
    ∧ c1State.mongo.history.length = 0 := by
  decide

/-- C1 amended: with the annotation being the single stored MongoDB
record, `update_annotation` returns `true` and merges the whole map into
`final_annotations`, but appends zero history entries per call — its one
attempted `updated` history write always fails validation because
`_add_annotation_history` omits the required `performed_by_username` — so
N changed values produce zero entries rather than N (and an identical
repeated call also produces zero). -/
theorem c1_update_merges_but_appends_no_entry (st : SysState) (d : Nat)
    (anns : FieldMap) (u : MUser) (now : Nat) (a : AnnotationMongo)
    (hs : st.mongo.annotations = [a]) (hd : a.document_id = d) :
    (updateAnnotationM st d anns u now).1 = true
    ∧ (updateAnnotationM st d anns u now).2.mongo.annotations.map
        (fun x => x.final_annotations) = [fmUpdate a.final_annotations anns]
    ∧ (updateAnnotationM st d anns u now).2.mongo.history = st.mongo.history := by
  have hfind : findAnnotationM st.mongo d = some a := by
    simp [findAnnotationM, hs, hd]
  simp [updateAnnotationM, hfind, addAnnotationHistoryM, historyValidates,
    saveAnnotationM, hs, annotationMongoSaveFixup_final]

/-- C1 witness: the amended theorem applied to the concrete C1 scenario. -/
theorem c1_update_merges_but_appends_no_entry_witness :
    (updateAnnotationM c1State 1 [("a", "2")] userA 5).1 = true :=
  (c1_update_merges_but_appends_no_entry c1State 1 [("a", "2")] userA 5 c1Ann
    rfl rfl).1

/-! ## Claim C2 — repeated `update_annotation_field` with the same value -/

/-- The annotation document of the C2 scenario, with no values yet. -/
def c2Ann : AnnotationMongo :=
  { oid := 0, document_id := 1, schema_id := 2, annotated_by_id := 7 }

/-- The C2 scenario state: the annotation exists with no values yet and an
empty history, before the two `updateAnnotationField` calls. -/
def c2State : SysState := { mongo := { annotations := [c2Ann], nextOid := 1 } }

/-- State after the first `update_annotation_field(D1, "amount", "500")`. -/
def c2After1 : SysState := (updateAnnotationFieldM c2State 1 "amount" "500" userA 5).2

/-- State after repeating the identical call. -/
def c2After2 : SysState := (updateAnnotationFieldM c2After1 1 "amount" "500" userA 6).2

/-- C2 counterexample: after the two identical
`update_annotation_field(D1, "amount", "500")` calls the stored annotation
content is identical, and the second call indeed produced no history
entry — but so did the first: zero history entries exist, not the exactly
one the claim demands, because each attempted `field_updated` write fails
MongoEngine validation (missing required `performed_by_username`, scalar
snapshots in the `DictField`s). -/
theorem c2_two_calls_leave_no_entries :
    (findAnnotationM c2After1.mongo 1).map (fun a => a.final_annotations)
        = some [("amount", "500")]
    ∧ (findAnnotationM c2After2.mongo 1).map (fun a => a.final_annotations)
        = some [("amount", "500")]
    ∧ c2After1.mongo.history.length = 0
    ∧ c2After2.mongo.history.length = 0 := by
  decide

/-- C2 amended: with the annotation being the single stored one and already
holding value `v` for field `f`, a repeated `update_annotation_field` call
returns `true`, leaves the stored `final_annotations` unchanged, and — like
every call to this method — appends no history entry at all: the attempted
`field_updated` write always fails validation, so zero entries for
`(f, v)` exist after the two calls rather than exactly one. -/
theorem c2_repeat_field_update_no_entry (st : SysState) (d : Nat) (f v : String)
    (u : MUser) (now : Nat) (a : AnnotationMongo)
    (hs : st.mongo.annotations = [a]) (hd : a.document_id = d)
    (hv : fmGet a.final_annotations f = some v) :
    (updateAnnotationFieldM st d f v u now).1 = true
    ∧ (updateAnnotationFieldM st d f v u now).2.mongo.annotations.map
        (fun x => x.final_annotations) = [a.final_annotations]
    ∧ (updateAnnotationFieldM st d f v u now).2.mongo.history
        = st.mongo.history := by
  have hfind : findAnnotationM st.mongo d = some a := by
    simp [findAnnotationM, hs, hd]
  simp [updateAnnotationFieldM, hfind, hv, saveAnnotationM, hs,
    addAnnotationHistoryM, historyValidates, fmSet_of_get_eq _ _ _ hv,
    Snap.ofOpt, annotationMongoSaveFixup_final]

/-- C2 witness: the amended theorem applied to the concrete state reached
after the first call. -/
theorem c2_repeat_field_update_no_entry_witness :
    (updateAnnotationFieldM c2After1 1 "amount" "500" userA 6).1 = true :=
  (c2_repeat_field_update_no_entry c2After1 1 "amount" "500" userA 6
    (annotationMongoSaveFixup
      { c2Ann with final_annotations := fmSet c2Ann.final_annotations "amount" "500" } 5)
    rfl (by decide) (by decide)).1

/-! ## Claim C3 — repair of a missing projection -/

/-- The C3 scenario document: present in Django, absent from MongoDB. -/
def c3Doc : DjangoDocument :=
  { did := 1, title := "Rapport", description := "desc", uploaded_by := userA }

/-- The C3 scenario state: the primary record exists, the secondary store
is empty, and the connection has already been established. -/
def c3State : SysState :=
  { django := { documents := [c3Doc] }, connectionTested := true }

/-- C3: the repair pass reports the document repaired (`repaired = 1`,
`errors = 0`) yet the final state is unchanged — in particular no
`DocumentMetadataMongo` projection was created for the document.
`force_sync_document_to_mongodb` re-runs the update branch of the
post-save hook, and `update_document_metadata` returns `False` for an
absent projection, a result `force_sync` ignores before returning `True`. -/
theorem c3_repair_leaves_missing_projection_absent :
    findDocMetaM c3State.mongo 1 = none
    ∧ repairSynchronization ConnectOutcome.ok c3State 9 = Except.ok (1, 0, c3State) :=
  ⟨rfl, rfl⟩

/-! ## Claim C4 — field comparison in the repair pass -/

/-- The C4 scenario document: its description was edited in Django. -/
def c4Doc : DjangoDocument :=
  { did := 1, title := "t", description := "new-desc", uploaded_by := userA }

/-- The C4 scenario projection: same title and status, stale description. -/
def c4Md : DocumentMetadataMongo :=
  { oid := 0, document_id := 1, title := "t", description := "stale-desc",
    status := "uploaded" }

/-- The C4 scenario state. -/
def c4State : SysState :=
  { django := { documents := [c4Doc] }
    mongo := { documentMetadata := [c4Md], nextOid := 1 }
    connectionTested := true }

/-- C4 counterexample: a projection that differs from its primary record
only in the description is not detected by the repair pass — it reports
zero repairs and leaves the stale description in place, because the code
compares only `title` and `status`. -/
theorem c4_description_only_drift_not_repaired :
    c4Md.description ≠ c4Doc.description
    ∧ repairSynchronization ConnectOutcome.ok c4State 9 = Except.ok (0, 0, c4State) :=
  ⟨by decide, rfl⟩

/-- C4 amended: for a present projection the repair pass compares only
`title` and `status`.  When both match, the projection is left untouched
even if the description (or anything else) differs; when either
mismatches, the projection's `title`, `description`, `status` and
`metadata` are all overwritten from the primary record in one save. -/
theorem c4_repair_compares_title_and_status_only (env : ConnectOutcome)
    (st : SysState) (doc : DjangoDocument) (md : DocumentMetadataMongo) (now : Nat)
    (hdocs : st.django.documents = [doc])
    (hmd : st.mongo.documentMetadata = [md])
    (hkey : md.document_id = doc.did)
    (hconn : st.connectionTested = true ∨ env = ConnectOutcome.ok) :
    (md.title = doc.title ∧ md.status = doc.status →
      repairSynchronization env st now
        = Except.ok (0, 0, { st with connectionTested := true }))
    ∧ (md.title ≠ doc.title ∨ md.status ≠ doc.status →
      ∃ r, repairSynchronization env st now = Except.ok (1, 0, r)
        ∧ r.mongo.documentMetadata
            = [{ md with
                  title := doc.title
                  description := doc.description
                  status := doc.status
                  metadata := doc.metadata
                  updated_at := now }]) := by
  have hst : sysEnsureConnection env st = (true, { st with connectionTested := true }) :=
    sysEnsureConnection_ok env st hconn
  constructor
  · rintro ⟨h1, h2⟩
    simp [repairSynchronization, hst, hdocs, repairStep, findDocMetaM, hmd, hkey,
      h1, h2]
  · intro hne
    have hcond : (md.title != doc.title || md.status != doc.status) = true := by
      rcases hne with h | h <;> simp [h]
    refine ⟨{ st with
        connectionTested := true
        mongo := saveDocMetaM st.mongo { md with
          title := doc.title
          description := doc.description
          status := doc.status
          metadata := doc.metadata } now }, ?_, ?_⟩
    · simp [repairSynchronization, hst, hdocs, repairStep, findDocMetaM, hmd, hkey,
        hcond]
    · simp [saveDocMetaM, hmd]

/-- C4 witness: the amended theorem applied to the concrete C4 scenario
(title and status match, so the projection is left untouched). -/
theorem c4_repair_compares_title_and_status_only_witness :
    repairSynchronization ConnectOutcome.ok c4State 9
      = Except.ok (0, 0, { c4State with connectionTested := true }) :=
  (c4_repair_compares_title_and_status_only ConnectOutcome.ok c4State c4Doc c4Md 9
    rfl rfl rfl (Or.inl rfl)).1 ⟨rfl, rfl⟩

/-! ## Claim C5 — cascade deletion -/

/-- C5: with the secondary store reachable (already connected, or the
connect succeeding), deleting a Django document removes its
`DocumentMetadataMongo` projection and every `AnnotationSchemaMongo`,
`AnnotationMongo` and `AnnotationHistoryMongo` document keyed to it: no
secondary record for that identifier survives, and the primary row is
gone as well. -/
theorem c5_delete_document_cascades (env : ConnectOutcome) (st : SysState)
    (docId : Nat) (hconn : st.connectionTested = true ∨ env = ConnectOutcome.ok) :
    findDocMetaM (djangoDeleteDocument env st docId).mongo docId = none
    ∧ (∀ x ∈ (djangoDeleteDocument env st docId).mongo.schemas, x.document_id ≠ docId)
    ∧ (∀ x ∈ (djangoDeleteDocument env st docId).mongo.annotations, x.document_id ≠ docId)
    ∧ (∀ x ∈ (djangoDeleteDocument env st docId).mongo.history, x.document_id ≠ docId)
    ∧ (∀ x ∈ (djangoDeleteDocument env st docId).django.documents, x.did ≠ docId) := by
  have hmono : ∀ s : SysState, s.connectionTested = true ∨ env = ConnectOutcome.ok →
      ∀ d, deleteAnnotationM env s d = (true, { s with
        connectionTested := true
        mongo := { s.mongo with
          annotations := s.mongo.annotations.filter (fun x => x.document_id != d)
          history := s.mongo.history.filter (fun x => x.document_id != d) } }) := by
    intro s hs d
    simp [deleteAnnotationM, sysEnsureConnection_ok env s hs]
  have hschema : ∀ s : SysState, s.connectionTested = true ∨ env = ConnectOutcome.ok →
      ∀ d, deleteAnnotationSchemaM env s d = (true, { s with
        connectionTested := true
        mongo := { s.mongo with
          schemas := s.mongo.schemas.filter (fun x => x.document_id != d) } }) := by
    intro s hs d
    simp [deleteAnnotationSchemaM, sysEnsureConnection_ok env s hs]
  have hdoc : ∀ s : SysState, s.connectionTested = true ∨ env = ConnectOutcome.ok →
      ∀ d, deleteDocumentMetadataM env s d = (true, { s with
        connectionTested := true
        mongo := { s.mongo with
          documentMetadata := s.mongo.documentMetadata.filter (fun x => x.document_id != d)
          schemas := s.mongo.schemas.filter (fun x => x.document_id != d)
          annotations := s.mongo.annotations.filter (fun x => x.document_id != d)
          history := s.mongo.history.filter (fun x => x.document_id != d) } }) := by
    intro s hs d
    simp [deleteDocumentMetadataM, sysEnsureConnection_ok env s hs]
  -- the state fed into the final `delete_document_metadata` call
  set st1 : SysState := (match findAnnotationDjango st.django docId with
    | some _ => deleteAnnotationFromMongodb env st docId
    | none => st) with hst1
  have hst1conn : st1.connectionTested = true ∨ env = ConnectOutcome.ok := by
    rcases hconn with h | h
    · left
      rw [hst1]
      cases hfa : findAnnotationDjango st.django docId <;>
        simp [deleteAnnotationFromMongodb, hmono st (Or.inl h), h]
    · right
      exact h
  set st2 : SysState := (match findSchemaDjango st1.django docId with
    | some _ => deleteAnnotationSchemaFromMongodb env st1 docId
    | none => st1) with hst2
  have hst2conn : st2.connectionTested = true ∨ env = ConnectOutcome.ok := by
    rcases hst1conn with h | h
    · left
      rw [hst2]
      cases hfs : findSchemaDjango st1.django docId <;>
        simp [deleteAnnotationSchemaFromMongodb, hschema st1 (Or.inl h), h]
    · right
      exact h
  have hfinal : djangoDeleteDocument env st docId = { (deleteDocumentFromMongodb env st2 docId) with
      django := { (deleteDocumentFromMongodb env st2 docId).django with
        documents := (deleteDocumentFromMongodb env st2 docId).django.documents.filter
          (fun x => x.did != docId)
        schemas := (deleteDocumentFromMongodb env st2 docId).django.schemas.filter
          (fun x => x.document_id != docId)
        annotations := (deleteDocumentFromMongodb env st2 docId).django.annotations.filter
          (fun x => x.document_id != docId) } } := by
    rw [djangoDeleteDocument, ← hst1, ← hst2]
  have hmongo : (deleteDocumentFromMongodb env st2 docId).mongo = { st2.mongo with
      documentMetadata := st2.mongo.documentMetadata.filter (fun x => x.document_id != docId)
      schemas := st2.mongo.schemas.filter (fun x => x.document_id != docId)
      annotations := st2.mongo.annotations.filter (fun x => x.document_id != docId)
      history := st2.mongo.history.filter (fun x => x.document_id != docId) } := by
    simp [deleteDocumentFromMongodb, hdoc st2 hst2conn]
  refine ⟨?_, ?_, ?_, ?_, ?_⟩
  · rw [hfinal]
    simp only [findDocMetaM, hmongo]
    rw [List.find?_eq_none]
    intro x hx
    have := (List.mem_filter.mp hx).2
    simpa using this
  · rw [hfinal]
    simp only [hmongo]
    intro x hx
    have := (List.mem_filter.mp hx).2
    simpa using this
  · rw [hfinal]
    simp only [hmongo]
    intro x hx
    have := (List.mem_filter.mp hx).2
    simpa using this
  · rw [hfinal]
    simp only [hmongo]
    intro x hx
    have := (List.mem_filter.mp hx).2
    simpa using this
  · rw [hfinal]
    intro x hx
    have := (List.mem_filter.mp hx).2
    simpa using this

/-- The C5 scenario: one document with schema, annotation and history
projections in MongoDB, and its Django rows. -/
def c5Doc : DjangoDocument := { did := 1, title := "t", uploaded_by := userA }

/-- The C5 scenario annotation projection. -/
def c5AnnM : AnnotationMongo :=
  { oid := 2, document_id := 1, schema_id := 2, annotated_by_id := 7 }

/-- The C5 scenario history entry. -/
def c5HistM : AnnotationHistoryMongo :=
  { oid := 3, annotation_id := 2, document_id := 1, action_type := "created",
    performed_by_id := 7 }

/-- The C5 scenario state. -/
def c5State : SysState :=
  { django := { documents := [c5Doc]
                schemas := [{ sid := 2, document_id := 1, created_by := userA }]
                annotations := [{ aid := 3, document_id := 1, schema_id := 2,
                                  annotated_by := userA }] }
    mongo := { documentMetadata := [{ oid := 0, document_id := 1, title := "t" }]
               schemas := [{ oid := 1, document_id := 1 }]
               annotations := [c5AnnM]
               history := [c5HistM]
               nextOid := 4 }
    connectionTested := true }

/-- C5 witness: the cascade-deletion theorem applied to the concrete C5
scenario. -/
theorem c5_delete_document_cascades_witness :
    findDocMetaM (djangoDeleteDocument ConnectOutcome.ok c5State 1).mongo 1 = none :=
  (c5_delete_document_cascades ConnectOutcome.ok c5State 1 (Or.inl rfl)).1

/-! ## Claim C6 — merge precedence of the hybrid read -/

/-- C6: when both stores hold an annotation for the document and their
final-annotation JSON differs, `get_annotation_with_mongodb_data` returns
the MongoDB copies of `final_annotations` and `ai_pre_annotations`, while
the identifier, completion/validation flags and annotator username still
come from the Django row. -/
theorem c6_merged_read_prefers_secondary_json (st : SysState) (doc : DjangoDocument)
    (da : AnnotationDjango) (ma : AnnotationMongo)
    (hd : findAnnotationDjango st.django doc.did = some da)
    (hm : findAnnotationM st.mongo doc.did = some ma)
    (hdiff : da.final_annotations ≠ ma.final_annotations) :
    ∃ v, getAnnotationWithMongodbData st doc = some v
      ∧ v.final_annotations = ma.final_annotations
      ∧ v.ai_pre_annotations = ma.ai_pre_annotations
      ∧ v.final_annotations ≠ da.final_annotations
      ∧ v.idA = da.aid
      ∧ v.is_complete = da.is_complete
      ∧ v.is_validated = da.is_validated
      ∧ v.annotated_by = da.annotated_by.username := by
  refine ⟨{ idA := da.aid
            ai_pre_annotations := ma.ai_pre_annotations
            final_annotations := ma.final_annotations
            is_complete := da.is_complete
            is_validated := da.is_validated
            confidence_score := da.confidence_score
            validation_notes := da.validation_notes
            annotated_by := da.annotated_by.username
            created_at := da.created_at
            completion_percentage := djangoCompletionPercentage st.django da
            mongodb_data := some
              { mongo_id := ma.oid
                confidence_scores := ma.confidence_scores
                average_confidence := ma.average_confidence
                completion_percentage_mongo := ma.completion_percentage } },
    ?_, rfl, rfl, fun h => hdiff h.symm, rfl, rfl, rfl, rfl⟩
  simp [getAnnotationWithMongodbData, hd, hm]

/-- The C6 scenario Django annotation row. -/
def c6AnnD : AnnotationDjango :=
  { aid := 3, document_id := 1, schema_id := 2, annotated_by := userA,
    final_annotations := [("a", "django")] }

/-- The C6 scenario MongoDB annotation document. -/
def c6AnnM : AnnotationMongo :=
  { oid := 2, document_id := 1, schema_id := 2, annotated_by_id := 7,
    final_annotations := [("a", "mongo")], ai_pre_annotations := [("a", "ai")] }

/-- The C6 scenario state. -/
def c6State : SysState :=
  { django := { annotations := [c6AnnD] }
    mongo := { annotations := [c6AnnM], nextOid := 4 } }

/-- C6 witness: the merge-precedence theorem applied to the concrete C6
scenario, extracting the MongoDB-provided map. -/
theorem c6_merged_read_prefers_secondary_json_witness :
    ∃ v, getAnnotationWithMongodbData c6State c5Doc = some v
      ∧ v.final_annotations = c6AnnM.final_annotations
      ∧ v.ai_pre_annotations = c6AnnM.ai_pre_annotations
      ∧ v.final_annotations ≠ c6AnnD.final_annotations
      ∧ v.idA = c6AnnD.aid
      ∧ v.is_complete = c6AnnD.is_complete
      ∧ v.is_validated = c6AnnD.is_validated
      ∧ v.annotated_by = c6AnnD.annotated_by.username :=
  c6_merged_read_prefers_secondary_json c6State c5Doc c6AnnD c6AnnM rfl rfl (by decide)

/-! ## Claim C7 — `validate_annotation` across both stores -/

/-- The C7 scenario Django annotation row (not yet validated). -/
def c7AnnD : AnnotationDjango :=
  { aid := 3, document_id := 1, schema_id := 2, annotated_by := userA,
    final_annotations := [("a", "1")] }

/-- The C7 scenario MongoDB annotation document. -/
def c7AnnM : AnnotationMongo :=
  { oid := 2, document_id := 1, schema_id := 2, annotated_by_id := 7,
    final_annotations := [("a", "1")] }

/-- The C7 scenario state: the annotation exists in both stores. -/
def c7State : SysState :=
  { django := { annotations := [c7AnnD] }
    mongo := { annotations := [c7AnnM], nextOid := 4 }
    connectionTested := true }

/-- C7 counterexample: `validate_annotation` on the hybrid service returns
`true` and sets the flag and timestamp on the MongoDB record, but appends
zero history entries — every attempted history write (the `updated` one
via the post-save sync hook and the two `validated` ones) fails MongoEngine
validation for the missing required `performed_by_username` — so no
`validated` entry exists, not exactly one; and the Django row's
`validated_at` timestamp is left unset. -/
theorem c7_no_validated_entry_no_primary_timestamp :
    (validateAnnotationH c7State c5Doc userA "ok" 9).1 = true
    ∧ (validateAnnotationH c7State c5Doc userA "ok" 9).2.mongo.history.length = 0
    ∧ (validateAnnotationH c7State c5Doc userA "ok" 9).2.django.annotations.map
        (fun a => a.validated_at) = [none]
    ∧ (validateAnnotationH c7State c5Doc userA "ok" 9).2.mongo.annotations.map
        (fun a => (a.is_validated, a.validated_at)) = [(true, some 9)] := by
  decide

/-- `annotationMongoSaveFixup` does not change `is_validated`. -/
theorem annotationMongoSaveFixup_is_validated (a : AnnotationMongo) (now : Nat) :
    (annotationMongoSaveFixup a now).is_validated = a.is_validated := by
  by_cases h : a.final_annotations.isEmpty <;> simp [annotationMongoSaveFixup, h]

/-- `annotationMongoSaveFixup` does not change `validated_by_id`. -/
theorem annotationMongoSaveFixup_validated_by_id (a : AnnotationMongo) (now : Nat) :
    (annotationMongoSaveFixup a now).validated_by_id = a.validated_by_id := by
  by_cases h : a.final_annotations.isEmpty <;> simp [annotationMongoSaveFixup, h]

/-- `annotationMongoSaveFixup` does not change `validated_at`. -/
theorem annotationMongoSaveFixup_validated_at (a : AnnotationMongo) (now : Nat) :
    (annotationMongoSaveFixup a now).validated_at = a.validated_at := by
  by_cases h : a.final_annotations.isEmpty <;> simp [annotationMongoSaveFixup, h]

/-- `annotationMongoSaveFixup` does not change `validation_notes`. -/
theorem annotationMongoSaveFixup_validation_notes (a : AnnotationMongo) (now : Nat) :
    (annotationMongoSaveFixup a now).validation_notes = a.validation_notes := by
  by_cases h : a.final_annotations.isEmpty <;> simp [annotationMongoSaveFixup, h]

/-- C7 amended: with the annotation being the single row in each store,
`validate_annotation` returns `true`; it sets the validated flag, the
validator and the notes on both records and the validation timestamp on
the MongoDB record only — the Django `validated_at` keeps its previous
value; and it appends zero history entries: all three attempted history
writes (one `updated` via the post-save hook, two `validated`) fail
validation for the missing required `performed_by_username`. -/
theorem c7_validate_sets_flags_appends_no_history (st : SysState)
    (doc : DjangoDocument) (u : MUser) (notes : String) (now : Nat)
    (da : AnnotationDjango) (ma : AnnotationMongo)
    (hda : st.django.annotations = [da]) (hdd : da.document_id = doc.did)
    (hma : st.mongo.annotations = [ma]) (hmd : ma.document_id = doc.did) :
    (validateAnnotationH st doc u notes now).1 = true
    ∧ (validateAnnotationH st doc u notes now).2.django.annotations.map
        (fun a => (a.is_validated, a.validated_by, a.validation_notes, a.validated_at))
        = [(true, some u, notes, da.validated_at)]
    ∧ (validateAnnotationH st doc u notes now).2.mongo.history = st.mongo.history
    ∧ (validateAnnotationH st doc u notes now).2.mongo.annotations.map
        (fun a => (a.is_validated, a.validated_by_id, a.validated_at, a.validation_notes))
        = [(true, some u.uid, some now, notes)] := by
  simp [validateAnnotationH, djangoSaveAnn, syncAnnotationToMongodb,
    updateAnnotationM, validateAnnotationM, saveAnnotationM, addAnnotationHistoryM,
    historyValidates, findAnnotationDjango, findAnnotationM, hda, hdd, hma, hmd,
    annotationMongoSaveFixup_document_id, annotationMongoSaveFixup_oid,
    annotationMongoSaveFixup_is_validated, annotationMongoSaveFixup_validated_by_id,
    annotationMongoSaveFixup_validated_at, annotationMongoSaveFixup_validation_notes]

/-- C7 witness: the amended theorem applied to the concrete C7 scenario. -/
theorem c7_validate_sets_flags_appends_no_history_witness :
    (validateAnnotationH c7State c5Doc userA "ok" 9).1 = true :=
  (c7_validate_sets_flags_appends_no_history c7State c5Doc userA "ok" 9
    c7AnnD c7AnnM rfl rfl rfl rfl).1

/-! ## Claim C8 — `create_annotation` requires a schema -/

/-- The post-save sync hook never touches the Django store. -/
theorem syncAnnotationToMongodb_django (created : Bool) (ann : AnnotationDjango)
    (st : SysState) (now : Nat) :
    (syncAnnotationToMongodb created ann st now).django = st.django := by
  cases created
  · simp only [syncAnnotationToMongodb]
    cases hupd : updateAnnotationM st ann.document_id ann.final_annotations
        ann.annotated_by now with
    | mk b st1 =>
      have h1 : st1.django = st.django := by
        revert hupd
        simp only [updateAnnotationM]
        cases findAnnotationM st.mongo ann.document_id <;> intro hupd <;>
          cases hupd <;> rfl
      by_cases hv : ann.is_validated
      · cases hvb : ann.validated_by with
        | none => simp [hv, hvb, hupd, h1]
        | some vu =>
          simp only [hv, hvb, hupd, if_true]
          have h2 : ∀ r, validateAnnotationM st1 ann.document_id vu
              ann.validation_notes now = r → r.2.django = st1.django := by
            simp only [validateAnnotationM]
            cases findAnnotationM st1.mongo ann.document_id <;> intro r hr <;>
              cases hr <;> rfl
          simpa [h1] using h2 _ rfl
      · simp [hv, hupd, h1]
  · simp only [syncAnnotationToMongodb]
    cases hc : createAnnotationM st ann.document_id ann.schema_id ann.annotated_by
        ann.ai_pre_annotations now with
    | error e => rfl
    | ok r =>
      have : r.2.django = st.django := by
        revert hc
        simp only [createAnnotationM]
        by_cases hex : (findAnnotationM st.mongo ann.document_id).isSome <;>
          intro hc <;> simp [hex] at hc
        cases hc
        rfl
      simp [this]

/-- C8: `create_annotation` on the hybrid service fails (the `ValueError`
is re-raised to the caller) when the document has no Django schema,
leaving both stores untouched; when a schema exists and no annotation does
yet, it returns a freshly created Django `Annotation` row for the
document, which is then found in the primary store. -/
theorem c8_create_requires_schema (st : SysState) (doc : DjangoDocument)
    (u : MUser) (aiPre : FieldMap) (now : Nat) :
    (findSchemaDjango st.django doc.did = none →
      createAnnotationH st doc u aiPre now = (Except.error (), st))
    ∧ (∀ schema, findSchemaDjango st.django doc.did = some schema →
        findAnnotationDjango st.django doc.did = none →
        ∃ da st', createAnnotationH st doc u aiPre now = (Except.ok da, st')
          ∧ da.document_id = doc.did
          ∧ da.schema_id = schema.sid
          ∧ da.annotated_by = u
          ∧ da.ai_pre_annotations = aiPre
          ∧ da.final_annotations = []
          ∧ findAnnotationDjango st'.django doc.did = some da) := by
  constructor
  · intro h
    simp [createAnnotationH, h]
  · intro schema hs hnone
    simp only [createAnnotationH, hs, djangoCreateAnn, hnone, Option.isSome_none,
      Bool.false_eq_true, if_false, reduceCtorEq]
    set da : AnnotationDjango :=
      { aid := st.django.nextId, document_id := doc.did, schema_id := schema.sid,
        ai_pre_annotations := aiPre, final_annotations := [],
        annotated_by := u, created_at := now, updated_at := now } with hdadef
    set st1 : SysState := { st with django := { st.django with
      annotations := st.django.annotations ++ [da]
      nextId := st.django.nextId + 1 } } with hst1
    have hfound : ∀ s : SysState, s.django = st1.django →
        findAnnotationDjango s.django doc.did = some da := by
      intro s hsdj
      rw [hsdj]
      simp only [hst1, findAnnotationDjango, List.find?_append]
      have : st.django.annotations.find? (fun a => a.document_id == doc.did) = none := hnone
      simp [this, hdadef]
    cases hsync : syncAnnotationToMongodb true da st1 now with
    | mk dj mg ct =>
      have hdj : dj = st1.django := by
        have := syncAnnotationToMongodb_django true da st1 now
        rw [hsync] at this
        exact this
      cases hc : createAnnotationM ⟨dj, mg, ct⟩ doc.did schema.sid u aiPre now with
      | ok r =>
        refine ⟨da, r.2, by simp [hsync, hc], rfl, rfl, rfl, rfl, rfl, ?_⟩
        have hr : r.2.django = dj := by
          revert hc
          simp only [createAnnotationM]
          by_cases hex : (findAnnotationM mg doc.did).isSome <;>
            intro hc <;> simp [hex] at hc
          cases hc
          rfl
        exact hfound _ (by rw [hr, hdj])
      | error e =>
        refine ⟨da, ⟨dj, mg, ct⟩, by simp [hsync, hc], rfl, rfl, rfl, rfl, rfl, ?_⟩
        exact hfound _ hdj

/-- The C8 scenario state: a document with no schema. -/
def c8StateNoSchema : SysState :=
  { django := { documents := [c5Doc] }, connectionTested := true }

/-- C8 witness: the theorem applied to the concrete no-schema scenario —
the call fails and the state is returned unchanged. -/
theorem c8_create_requires_schema_witness :
    createAnnotationH c8StateNoSchema c5Doc userA [("p", "q")] 9
      = (Except.error (), c8StateNoSchema) :=
  (c8_create_requires_schema c8StateNoSchema c5Doc userA [("p", "q")] 9).1 rfl

/-! ## Claim C10 — a false return does not mean "nothing happened" -/

/-- The C10 scenario Django annotation row, with no values yet. -/
def c10AnnD : AnnotationDjango :=
  { aid := 3, document_id := 1, schema_id := 2, annotated_by := userA }

/-- The C10 scenario state: the Django annotation exists but no MongoDB
annotation document does, so the secondary write will fail. -/
def c10State : SysState :=
  { django := { annotations := [c10AnnD] }, connectionTested := true }

/-- C10: `update_annotation_field` on the hybrid service returns `false`
(the MongoDB annotation is absent) after the Django row has already been
mutated and saved — the primary mutation is not rolled back, so a `false`
result does not imply the system state is unchanged. -/
theorem c10_false_return_after_primary_mutation :
    (updateAnnotationFieldH c10State c5Doc "amount" "500" userA 9).1 = false
    ∧ (updateAnnotationFieldH c10State c5Doc "amount" "500" userA 9).2.django.annotations.map
        (fun a => a.final_annotations) = [[("amount", "500")]]
    ∧ c10State.django.annotations.map (fun a => a.final_annotations) = [[]] := by
  decide
